import Mathlib

/-!
Verification of the SnapMerch core: style-priority ranking
(services/stylePriority.ts), the batched generation orchestrator
(the API service's generateAllStyles), and the session store
(services/storage.ts), as a shallow embedding in Lean.

Conventions of the embedding:
* TypeScript strings are Lean `String`; `string | null` and optional
  fields are `Option String`.
* JS numbers on the modelled paths are integers (timestamps, lengths),
  so they are embedded as `Int`/`Nat`; `price` is never computed with,
  only stored, and is embedded as `Rat`.
* Fallible external effects (localStorage quota, remote queries, remote
  generation calls) are passed in as explicit oracles, so each modelled
  function is total: a thrown-and-caught JS exception corresponds to an
  oracle answer, and "no exception escapes" corresponds to totality of
  the embedded function.
-/

namespace Snapmerch

/-! ## JavaScript string primitives used by the source -/

/-- JS `String.prototype.includes`: substring containment. -/
def strIncludes (s pat : String) : Bool :=
  (List.range (s.data.length + 1)).any (fun i => pat.data.isPrefixOf (s.data.drop i))

/-- JS `String.prototype.startsWith`. -/
def jsStartsWith (s pat : String) : Bool :=
  pat.data.isPrefixOf s.data

/-- Strip leading and trailing whitespace from a character list. -/
def trimChars (cs : List Char) : List Char :=
  ((cs.dropWhile Char.isWhitespace).reverse.dropWhile Char.isWhitespace).reverse

/-- JS `s.toLowerCase().trim()`, the normalization both classifier fields
go through (implemented over the character list so it evaluates by
kernel reduction). -/
def jsLowerTrim (s : String) : String :=
  ⟨trimChars (s.data.map Char.toLower)⟩

/-- JS `parseInt(s, 10)`: skip leading whitespace, optional sign, then the
longest run of leading decimal digits; `none` models `NaN`. -/
def jsParseInt (s : String) : Option Int :=
  let cs := trimChars s.data
  let signAndRest : Int × List Char :=
    match cs with
    | '-' :: r => (-1, r)
    | '+' :: r => (1, r)
    | r => (1, r)
  let ds := signAndRest.2.takeWhile (fun c => c.isDigit)
  if ds.isEmpty then none
  else some (signAndRest.1 * Int.ofNat (ds.foldl (fun n c => n * 10 + (c.toNat - '0'.toNat)) 0))

/-- The source's `parseInt(identity.year, 10) || 0`: `NaN` (and `0` itself,
which is falsy) collapse to `0`. -/
def parseIntOr0 (s : String) : Int :=
  (jsParseInt s).getD 0

/-- JS `s || ''` on a `string | null | undefined` value. -/
def jsOrEmpty (o : Option String) : String :=
  o.getD ""

/-- JS `s || undefined` on a `string | null | undefined` value: the empty
string is falsy and collapses to `undefined`. -/
def jsOrUndefined (o : Option String) : Option String :=
  match o with
  | some s => if s.data.isEmpty then none else some s
  | none => none

/-- JS truthiness test `!s` for a `string | null` variable (true when the
value is null/undefined or the empty string). -/
def jsFalsyStr (o : Option String) : Bool :=
  match o with
  | some s => s.data.isEmpty
  | none => true

/-! ## Data model (types.ts) -/

/-- The 12 style ids of `SnapMerchStyle` (source ids `pop-art` and
`neon-80s` are spelled `popArt` and `neon80s`). -/
inductive SnapMerchStyle where
  | vector | retro | calligram | neon
  | watercolor | comic | blueprint | popArt
  | pencil | neon80s | lowrider | japanese
deriving DecidableEq

structure StyleConfig where
  id : SnapMerchStyle
  label : String
  emoji : String
  artStyle : String
  color : Option String := none
  backgroundColor : Option String := none
deriving DecidableEq

/-- The fixed 12-entry style catalog `STYLE_CONFIGS`. -/
def STYLE_CONFIGS : List StyleConfig :=
  [ { id := .vector, label := "Vector", emoji := "🎯", artStyle := "Vector (Monochromatic)", backgroundColor := some "#FFFFFF" },
    { id := .retro, label := "Retro Poster", emoji := "🎨", artStyle := "Vintage Poster", backgroundColor := some "#FFFFFF" },
    { id := .calligram, label := "Typography", emoji := "✍️", artStyle := "Distressed", backgroundColor := some "#FFFFFF" },
    { id := .neon, label := "Neon Glow", emoji := "💡", artStyle := "Neon Sign", backgroundColor := some "#000000" },
    { id := .watercolor, label := "Watercolor", emoji := "🎨", artStyle := "Watercolor", backgroundColor := some "#FFFFFF" },
    { id := .comic, label := "Comic Book", emoji := "💥", artStyle := "Comic Book", backgroundColor := some "#FFFFFF" },
    { id := .blueprint, label := "Blueprint", emoji := "📐", artStyle := "Blueprint Style", backgroundColor := some "#003366" },
    { id := .popArt, label := "Pop Art", emoji := "🎭", artStyle := "Pop Art", backgroundColor := some "#FFFFFF" },
    { id := .pencil, label := "Pencil Sketch", emoji := "✏️", artStyle := "Pencil Sketch", backgroundColor := some "#FFFFFF" },
    { id := .neon80s, label := "80s Synthwave", emoji := "🌆", artStyle := "Synthwave 80s", backgroundColor := some "#1a0033" },
    { id := .lowrider, label := "Lowrider Art", emoji := "🔊", artStyle := "Lowrider Airbrush", backgroundColor := some "#FFFFFF" },
    { id := .japanese, label := "JDM Style", emoji := "🗾", artStyle := "JDM Japanese", backgroundColor := some "#000000" } ]

structure CarIdentity where
  year : String
  make : String
  model : String
  trim : String
  colorName : String
  colorHex : String
deriving DecidableEq

/-- The `'idle' | 'generating' | 'done' | 'error'` status union. -/
inductive StyleStatus where
  | idle | generating | done | error
deriving DecidableEq

structure GeneratedStyle where
  styleId : SnapMerchStyle
  imageUrl : Option String
  status : StyleStatus
  error : Option String := none
deriving DecidableEq

structure MockupResult where
  productId : String
  styleId : SnapMerchStyle
  imageUrl : Option String
  status : StyleStatus
deriving DecidableEq

structure OrderItem where
  productId : String
  styleId : SnapMerchStyle
  size : Option String := none
  colorChoice : Option String := none
  price : Rat
deriving DecidableEq

structure ShippingAddress where
  firstName : String
  lastName : String
  address1 : String
  address2 : String
  city : String
  state : String
  zip : String
  country : String
deriving DecidableEq

inductive OrderStatus where
  | pending | confirmed | fulfilled
deriving DecidableEq

structure Order where
  id : String
  carSessionId : String
  items : List OrderItem
  customerEmail : String
  customerName : Option String := none
  customerPhone : Option String := none
  shippingAddress : Option ShippingAddress := none
  paymentId : Option String := none
  status : OrderStatus
  createdAt : Int
deriving DecidableEq

structure CarSession where
  id : String
  photoBase64 : String
  photoThumbnail : Option String := none
  identity : Option CarIdentity
  styles : List GeneratedStyle
  mockups : List MockupResult
  orders : List Order
  createdAt : Int
  shareUrl : Option String := none
deriving DecidableEq

structure EventSession where
  id : String
  name : String
  date : String
  cars : List CarSession
  createdAt : Int
deriving DecidableEq

/-! ## Vehicle classifier (services/stylePriority.ts) -/

def JDM_MAKES : List String :=
  ["honda", "toyota", "nissan", "subaru", "mazda", "mitsubishi", "lexus", "acura", "infiniti", "datsun"]

def LOWRIDER_MODELS : List String :=
  ["impala", "monte carlo", "regal", "cutlass", "el camino", "caprice", "fleetwood", "lacrosse",
   "riviera", "skylark", "lesabre", "deville", "town car", "crown victoria", "grand prix"]

def TRUCK_KEYWORDS : List String :=
  ["truck", "pickup", "f-150", "f-250", "f-350", "silverado", "sierra", "ram", "tundra", "titan",
   "tacoma", "frontier", "ranger", "colorado", "canyon", "ridgeline", "gladiator", "maverick", "raptor"]

def SPORTS_EXOTIC_MAKES : List String :=
  ["ferrari", "lamborghini", "porsche", "mclaren", "bugatti", "koenigsegg", "pagani",
   "aston martin", "lotus", "maserati"]

def SPORTS_MODELS : List String :=
  ["corvette", "camaro", "mustang", "supra", "gtr", "gt-r", "nsx", "rx-7", "rx7", "brz", "gr86",
   "86", "miata", "mx-5", "wrx", "sti", "evo", "lancer evolution", "challenger", "charger",
   "viper", "z06", "zr1", "shelby", "gt350", "gt500", "amg", "m3", "m4", "m5", "rs3", "rs5",
   "rs6", "rs7", "911", "cayman", "boxster", "panamera", "type r", "civic si", "s2000"]

/-- The American-marque list written inline in the lowrider branch. -/
def LOWRIDER_MAKES : List String :=
  ["chevrolet", "chevy", "buick", "oldsmobile", "cadillac", "lincoln", "pontiac", "ford"]

inductive VehicleCategory where
  | pre1980Classic | eighties90s | truck | jdm | lowrider | modernSports | default
deriving DecidableEq

/-- The classifier `categorizeVehicle`. The source's nested
`if (year range) { if (model and make) return ... }` is flattened to one
conjunction, which is equivalent because the inner block has no other
effect; `(identity.make || '')` needs no counterpart because the embedded
field is a total `String`. -/
def categorizeVehicle (identity : CarIdentity) : VehicleCategory :=
  let year : Int := parseIntOr0 identity.year
  let make := jsLowerTrim identity.make
  let model := jsLowerTrim identity.model
  let fullName := make ++ " " ++ model
  if 1958 ≤ year ∧ year ≤ 1985 ∧
      (LOWRIDER_MODELS.any (fun m => strIncludes model m)) = true ∧
      (LOWRIDER_MAKES.contains make) = true then
    .lowrider
  else if (JDM_MAKES.contains make) = true then
    .jdm
  else if (TRUCK_KEYWORDS.any (fun k => strIncludes fullName k)) = true then
    .truck
  else if 2010 ≤ year ∧
      ((SPORTS_EXOTIC_MAKES.any (fun m => strIncludes make m)) = true ∨
       (SPORTS_MODELS.any (fun m => strIncludes model m)) = true) then
    .modernSports
  else if 0 < year ∧ year < 1980 then
    .pre1980Classic
  else if 1980 ≤ year ∧ year ≤ 1999 then
    .eighties90s
  else
    .default

/-- The hand-authored category-to-order table `PRIORITY_MAP`. -/
def PRIORITY_MAP : VehicleCategory → List SnapMerchStyle
  | .pre1980Classic =>
      [.retro, .pencil, .watercolor, .vector, .popArt, .blueprint, .calligram, .neon, .comic, .lowrider, .neon80s, .japanese]
  | .eighties90s =>
      [.neon80s, .retro, .neon, .comic, .vector, .popArt, .calligram, .watercolor, .pencil, .blueprint, .lowrider, .japanese]
  | .truck =>
      [.vector, .blueprint, .retro, .watercolor, .pencil, .calligram, .neon, .comic, .popArt, .neon80s, .lowrider, .japanese]
  | .jdm =>
      [.japanese, .neon, .comic, .neon80s, .vector, .popArt, .retro, .calligram, .watercolor, .pencil, .blueprint, .lowrider]
  | .lowrider =>
      [.lowrider, .popArt, .retro, .neon, .calligram, .watercolor, .vector, .pencil, .comic, .blueprint, .neon80s, .japanese]
  | .modernSports =>
      [.neon, .vector, .comic, .neon80s, .popArt, .calligram, .retro, .blueprint, .watercolor, .pencil, .lowrider, .japanese]
  | .default =>
      [.vector, .retro, .neon, .comic, .calligram, .watercolor, .popArt, .pencil, .blueprint, .neon80s, .lowrider, .japanese]

/-- The body of `getPrioritizedStyles` after the category is known: the
first loop resolves each ordered id through the id-keyed config map
(`find?` is equivalent to the `Map` lookup because catalog ids are
unique), the second loop appends any catalog entry whose id has not been
emitted yet, checking against the growing accumulator exactly as the
source's `ordered.find(...)`/`push` loop does. -/
def prioritizedForCategory (category : VehicleCategory) : List StyleConfig :=
  let ordered := (PRIORITY_MAP category).foldl
    (fun acc sid =>
      match STYLE_CONFIGS.find? (fun c => c.id == sid) with
      | some cfg => acc ++ [cfg]
      | none => acc) []
  STYLE_CONFIGS.foldl
    (fun acc cfg => if acc.any (fun o => o.id == cfg.id) then acc else acc ++ [cfg]) ordered

/-- `getPrioritizedStyles`: classify, then rank. -/
def getPrioritizedStyles (identity : CarIdentity) : List StyleConfig :=
  prioritizedForCategory (categorizeVehicle identity)

/-! ## Batched generation orchestrator (the API service's generateAllStyles)

The orchestrator is asynchronous JS; it is embedded as a timed
event-loop model. A remote generation call is an oracle
`remote : SnapMerchStyle → Except String String` (`Except.error msg`
models the call rejecting with that error message, `Except.ok url` models
success) and its latency is an oracle `dur : SnapMerchStyle → Nat` in
milliseconds. The loop `for (i; i += MAX_CONCURRENT)` slices the request
list into windows of `MAX_CONCURRENT = 2`; within a window the entry with
`batchIndex > 0` first awaits a 500 ms `setTimeout` before issuing its
call, so it dispatches 500 ms after the window opens, while the first
entry dispatches when the window opens; each call settles after its
latency; `await Promise.allSettled` resumes the loop once every call of
the window has settled, i.e. at the maximum settle time of the window. -/

deriving instance DecidableEq for Except

/-- One request's lifecycle in a run of `generateAllStyles`: its position
in the request list, its style id, the time its remote call was issued,
the time that call settled, and its outcome. -/
structure GenEvent where
  idx : Nat
  sid : SnapMerchStyle
  dispatch : Nat
  settle : Nat
  outcome : Except String String
deriving DecidableEq

/-- The lifecycle of the request `c` at list position `i` whose remote
call is dispatched at time `t`. -/
def mkEvent (remote : SnapMerchStyle → Except String String)
    (dur : SnapMerchStyle → Nat) (i : Nat) (c : StyleConfig) (t : Nat) : GenEvent :=
  { idx := i, sid := c.id, dispatch := t, settle := t + dur c.id, outcome := remote c.id }

/-- The timed trace of the batching loop of `generateAllStyles`, starting
at time `t0` with list position `i0`: windows of two consecutive
requests, the second staggered by 500 ms, the next window starting when
both calls of the current window have settled. -/
def runGen (remote : SnapMerchStyle → Except String String)
    (dur : SnapMerchStyle → Nat) : Nat → Nat → List StyleConfig → List GenEvent
  | _, _, [] => []
  | t0, i0, [c] => [mkEvent remote dur i0 c t0]
  | t0, i0, c1 :: c2 :: rest =>
      let e1 := mkEvent remote dur i0 c1 t0
      let e2 := mkEvent remote dur (i0 + 1) c2 (t0 + 500)
      e1 :: e2 :: runGen remote dur (max e1.settle e2.settle) (i0 + 2) rest

/-- A full run of `generateAllStyles` over a request list (time origin 0,
first request is list position 0). -/
def generateAllStyles (remote : SnapMerchStyle → Except String String)
    (dur : SnapMerchStyle → Nat) (styleConfigs : List StyleConfig) : List GenEvent :=
  runGen remote dur 0 0 styleConfigs

/-- The contents of the `results` map returned by `generateAllStyles`:
`results.set(config.id, imageUrl)` runs exactly for the successful
requests. (The JS `Map` insertion order depends on settle order; only
the key-value contents are modelled.) -/
def genResults (evs : List GenEvent) : List (SnapMerchStyle × String) :=
  evs.filterMap (fun e => match e.outcome with
    | .ok url => some (e.sid, url)
    | .error _ => none)

/-- The `onStyleComplete` callback invocations of a run: one per
successful request, carrying the style id and image url. -/
def completeCalls (evs : List GenEvent) : List (SnapMerchStyle × String) :=
  genResults evs

/-- The `onStyleError` callback invocations of a run: one per failed
request, carrying the style id and the error's message. -/
def errorCalls (evs : List GenEvent) : List (SnapMerchStyle × String) :=
  evs.filterMap (fun e => match e.outcome with
    | .ok _ => none
    | .error msg => some (e.sid, msg))

/-! ## Local session store (services/storage.ts)

`localStorage` is modelled as the state of the one key these functions
touch (`snapmerch_event_session`); the stored value is either a
JSON-parsable `EventSession` or a corrupted blob (`JSON.parse` throws).
A `setItem` capacity failure is an oracle `cap : EventSession → Bool`
on the value being serialized (`false` means the write throws a quota
exception). `generateId()` and the clock are passed in as `newId`,
`today` and `now`. The fire-and-forget Supabase mirror launched at the
end of `saveEventSession` never touches the local state or the return
value and is not part of the local model. -/

/-- What `localStorage.getItem` can yield for the session key, seen
through `JSON.parse`. -/
inductive StoredSession where
  | corrupt
  | parsed (s : EventSession)
deriving DecidableEq

structure LocalStorage where
  eventSession : Option StoredSession
deriving DecidableEq

/-- `isLargeDataUrl`: a falsy value is not large; otherwise the string
must start with `data:` and be longer than 500 characters. -/
def isLargeDataUrl (s : Option String) : Bool :=
  match s with
  | none => false
  | some v => if v.data.isEmpty then false else jsStartsWith v "data:" && v.length > 500

/-- The per-style stripping in `saveEventSession`:
`imageUrl: isLargeDataUrl(s.imageUrl) ? '' : (s.imageUrl || '')`. -/
def stripStyle (g : GeneratedStyle) : GeneratedStyle :=
  { g with imageUrl := some (if isLargeDataUrl g.imageUrl then "" else jsOrEmpty g.imageUrl) }

/-- The per-mockup stripping in `saveEventSession` (same rule). -/
def stripMockup (m : MockupResult) : MockupResult :=
  { m with imageUrl := some (if isLargeDataUrl m.imageUrl then "" else jsOrEmpty m.imageUrl) }

/-- The thumbnail guard
`car.photoThumbnail && car.photoThumbnail.length < 15000`. -/
def thumbKept (c : CarSession) : Bool :=
  match c.photoThumbnail with
  | some t => !t.data.isEmpty && t.length < 15000
  | none => false

/-- The per-car stripping in `saveEventSession`: drop the photo, keep the
thumbnail only under the ceiling, strip style and mockup images. -/
def stripCar (c : CarSession) : CarSession :=
  { c with
    photoBase64 := ""
    photoThumbnail := some (if thumbKept c then jsOrEmpty c.photoThumbnail else "")
    styles := c.styles.map stripStyle
    mockups := c.mockups.map stripMockup }

/-- The `stripped` session serialized by `saveEventSession`'s first
write. -/
def stripSession (session : EventSession) : EventSession :=
  { session with cars := session.cars.map stripCar }

/-- The second-attempt trimming in `saveEventSession`'s catch block:
`stripped.cars = stripped.cars.slice(0, 3)` then every remaining
thumbnail blanked. -/
def trimForRetry (session : EventSession) : EventSession :=
  { session with cars := (session.cars.take 3).map (fun c => { c with photoThumbnail := some "" }) }

/-- `saveEventSession`: strip, write; on quota failure trim and retry;
on a second failure remove the entry. Total: every exception path of the
source is caught inside the function. -/
def saveEventSession (cap : EventSession → Bool) (session : EventSession)
    (_st : LocalStorage) : LocalStorage :=
  let stripped := stripSession session
  if cap stripped then { eventSession := some (.parsed stripped) }
  else
    let trimmed := trimForRetry stripped
    if cap trimmed then { eventSession := some (.parsed trimmed) }
    else { eventSession := none }

/-- The session object `createNewEventSession` builds: fresh id, name
`Cars & Coffee`, today as its date, no cars. -/
def freshSession (today newId : String) (now : Int) : EventSession :=
  { id := newId, name := "Cars & Coffee", date := today, cars := [], createdAt := now }

/-- `createNewEventSession`: build a fresh session for today and persist
it. -/
def createNewEventSession (cap : EventSession → Bool) (today newId : String)
    (now : Int) (st : LocalStorage) : EventSession × LocalStorage :=
  (freshSession today newId now, saveEventSession cap (freshSession today newId now) st)

/-- `getEventSession`: return the stored session if it parses and is
dated today; on a parse failure remove the corrupted entry; in every
other case fall through to `createNewEventSession`. -/
def getEventSession (cap : EventSession → Bool) (today newId : String)
    (now : Int) (st : LocalStorage) : EventSession × LocalStorage :=
  match st.eventSession with
  | some (.parsed s) =>
      if s.date == today then (s, st)
      else createNewEventSession cap today newId now st
  | some .corrupt =>
      createNewEventSession cap today newId now { eventSession := none }
  | none => createNewEventSession cap today newId now st

/-- `Partial<CarSession>`: a field is `some v` when the update object
carries that key with value `v`. -/
structure CarSessionPatch where
  id : Option String := none
  photoBase64 : Option String := none
  photoThumbnail : Option (Option String) := none
  identity : Option (Option CarIdentity) := none
  styles : Option (List GeneratedStyle) := none
  mockups : Option (List MockupResult) := none
  orders : Option (List Order) := none
  createdAt : Option Int := none
  shareUrl : Option (Option String) := none
deriving DecidableEq

/-- The spread merge `{ ...car, ...update }`. -/
def mergeCar (c : CarSession) (p : CarSessionPatch) : CarSession :=
  { id := p.id.getD c.id
    photoBase64 := p.photoBase64.getD c.photoBase64
    photoThumbnail := p.photoThumbnail.getD c.photoThumbnail
    identity := p.identity.getD c.identity
    styles := p.styles.getD c.styles
    mockups := p.mockups.getD c.mockups
    orders := p.orders.getD c.orders
    createdAt := p.createdAt.getD c.createdAt
    shareUrl := p.shareUrl.getD c.shareUrl }

/-- The in-place assignment `session.cars[idx] = merged`. -/
def setCarAt : List CarSession → Nat → CarSessionPatch → List CarSession
  | [], _, _ => []
  | c :: rest, 0, p => mergeCar c p :: rest
  | c :: rest, n + 1, p => c :: setCarAt rest n p

/-- `updateCarSession`: read the session, merge the update into the first
car whose id matches, and save; if no car matches, neither mutation nor
save happens. -/
def updateCarSession (cap : EventSession → Bool) (today newId : String) (now : Int)
    (carId : String) (patch : CarSessionPatch) (st : LocalStorage) :
    EventSession × LocalStorage :=
  let read := getEventSession cap today newId now st
  let session := read.1
  match session.cars.findIdx? (fun c => c.id == carId) with
  | some idx =>
      let session2 := { session with cars := setCarAt session.cars idx patch }
      (session2, saveEventSession cap session2 read.2)
  | none => (session, read.2)

/-! ## Remote session hydration (loadEventFromSupabase)

Each `supabase.from(...).select(...)` call is an oracle response
`QueryResult`: the client returns `{ data, error }` and never throws on
a failed query, so `err = true` together with `data = none` models a
failed read. Row shapes mirror the columns the source reads; the
`created_at` columns are embedded as the epoch value that
`new Date(x).getTime()` produces. The trailing best-effort
`localStorage.setItem` (its errors are swallowed) does not affect the
returned value and is not part of this model. -/

structure QueryResult (ρ : Type) where
  err : Bool
  data : Option (List ρ)
deriving DecidableEq

structure DbEvent where
  id : String
  name : String
  date : String
  created_at : Int
deriving DecidableEq

structure DbCar where
  id : String
  photo_thumbnail : Option String
  identity : Option CarIdentity
  share_url : Option String
  created_at : Int
deriving DecidableEq

structure DbStyle where
  car_id : String
  style_id : SnapMerchStyle
  image_url : Option String
  status : Option StyleStatus
  error : Option String
deriving DecidableEq

structure DbOrder where
  id : String
  car_id : String
  items : Option (List OrderItem)
  customer_email : String
  customer_name : Option String
  customer_phone : Option String
  shipping_address : Option ShippingAddress
  payment_id : Option String
  status : OrderStatus
  created_at : Int
deriving DecidableEq

/-- The four remote reads issued by one `loadEventFromSupabase` call. -/
structure RemoteDb where
  events : QueryResult DbEvent
  cars : QueryResult DbCar
  styles : QueryResult DbStyle
  orders : QueryResult DbOrder
deriving DecidableEq

/-- The `EventSession` assembled from the fetched rows: styles and orders
are grouped by `car_id` (the source's `Map`-of-arrays grouping preserves
row order within a group, which `filter` reproduces). -/
def buildSession (ev : DbEvent) (cars : List DbCar)
    (allStyles : List DbStyle) (allOrders : List DbOrder) : EventSession :=
  { id := ev.id
    name := ev.name
    date := ev.date
    cars := cars.map (fun car =>
      let dbStyles := allStyles.filter (fun s2 => s2.car_id == car.id)
      let dbOrders := allOrders.filter (fun o => o.car_id == car.id)
      { id := car.id
        photoBase64 := ""
        photoThumbnail := some (jsOrEmpty car.photo_thumbnail)
        identity := car.identity
        shareUrl := jsOrUndefined car.share_url
        styles := dbStyles.map (fun s2 =>
          { styleId := s2.style_id
            imageUrl := some (jsOrEmpty s2.image_url)
            status := s2.status.getD .idle
            error := jsOrUndefined s2.error })
        mockups := []
        orders := dbOrders.map (fun o =>
          { id := o.id
            carSessionId := o.car_id
            items := o.items.getD []
            customerEmail := o.customer_email
            customerName := jsOrUndefined o.customer_name
            customerPhone := jsOrUndefined o.customer_phone
            shippingAddress := o.shipping_address
            paymentId := jsOrUndefined o.payment_id
            status := o.status
            createdAt := o.created_at })
        createdAt := car.created_at })
    createdAt := ev.created_at }

/-- The query sequence of `loadEventFromSupabase` after the auth guard:
the events read and the cars read are checked for `error`/null data, but
the styles and orders reads have only their `data` destructured
(`const { data: allStyles } = ...`), defaulted with `|| []`. -/
def loadCore (db : RemoteDb) : Option EventSession :=
  if db.events.err then none
  else
    match db.events.data with
    | none => none
    | some [] => none
    | some (ev :: _) =>
      if db.cars.err then none
      else
        match db.cars.data with
        | none => none
        | some cars =>
            some (buildSession ev cars (db.styles.data.getD []) (db.orders.data.getD []))

/-- `loadEventFromSupabase`: `null` when the client is missing or the
user id is unset/falsy, otherwise the query sequence. Total: the
enclosing `try`/`catch` returns `null` on a throw, and no modelled step
throws. -/
def loadEventFromSupabase (hasSupabase : Bool) (userId : Option String)
    (db : RemoteDb) : Option EventSession :=
  if !hasSupabase || jsFalsyStr userId then none
  else loadCore db

/-! ## Concrete scenarios used to instantiate the theorems -/

/-- The all-blank identity of the totality property. -/
def blankIdentity : CarIdentity :=
  { year := "", make := "", model := "", trim := "", colorName := "", colorHex := "" }

/-- A 2021 Toyota Supra (year, make and model as the analysis step
produces them, mixed case). -/
def supraIdentity : CarIdentity :=
  { year := "2021", make := "Toyota", model := "Supra", trim := "", colorName := "Red", colorHex := "#FF0000" }

/-- A remote-generation oracle that always rejects the `retro` request
(request #2 of the four-request scenario) and resolves the others. -/
def failRemote : SnapMerchStyle → Except String String := fun sid =>
  match sid with
  | .retro => .error "boom"
  | .vector => .ok "u-vector"
  | .calligram => .ok "u-calligram"
  | _ => .ok "u-neon"

/-- A remote-generation oracle that always resolves. -/
def okRemote : SnapMerchStyle → Except String String := fun _ => .ok "img"

/-- A flat 1000 ms latency for every remote call. -/
def flatDur : SnapMerchStyle → Nat := fun _ => 1000

/-- The four-request run of the partial-failure scenario. -/
def c2run : List GenEvent :=
  generateAllStyles failRemote flatDur (STYLE_CONFIGS.take 4)

/-- A capacity oracle under which every write succeeds. -/
def alwaysFits : EventSession → Bool := fun _ => true

/-- A capacity oracle that rejects any serialized session holding more
than three cars. -/
def quotaCap : EventSession → Bool := fun e => e.cars.length ≤ 3

/-- A minimal car record for the storage scenarios. -/
def demoCar (i : String) : CarSession :=
  { id := i, photoBase64 := "rawphoto", photoThumbnail := some "thumb",
    identity := none, styles := [], mockups := [], orders := [], createdAt := 0 }

/-- A five-car session that overflows `quotaCap` even after stripping. -/
def quotaSession : EventSession :=
  { id := "e1", name := "Cars & Coffee", date := "2026-10-11",
    cars := [demoCar "a", demoCar "b", demoCar "c", demoCar "d", demoCar "e"], createdAt := 0 }

/-- A data URL 505 characters long, over the 500-character ceiling. -/
def bigDataUrl : String :=
  ⟨'d' :: 'a' :: 't' :: 'a' :: ':' :: List.replicate 500 'x'⟩

/-- A style entry holding a large generated image as a data URL. -/
def bigStyle : GeneratedStyle :=
  { styleId := .vector, imageUrl := some bigDataUrl, status := .done }

/-- A car whose style images include a large data URL. -/
def bigImageCar : CarSession :=
  { id := "big", photoBase64 := "rawphoto", photoThumbnail := some "thumb",
    identity := none, styles := [bigStyle], mockups := [], orders := [], createdAt := 0 }

/-- A session carrying `bigImageCar`. -/
def bigImageSession : EventSession :=
  { id := "e2", name := "Cars & Coffee", date := "2026-10-11",
    cars := [bigImageCar], createdAt := 0 }

/-- The empty localStorage state. -/
def initStorage : LocalStorage := { eventSession := none }

/-- A localStorage state whose session entry does not parse. -/
def corruptStorage : LocalStorage := { eventSession := some .corrupt }

/-- A two-car session used by the update-frame scenario. -/
def twoCarSession : EventSession :=
  { id := "e3", name := "Cars & Coffee", date := "2026-10-11",
    cars := [demoCar "a", demoCar "b"], createdAt := 0 }

/-- Storage holding `twoCarSession`. -/
def twoCarStorage : LocalStorage := { eventSession := some (.parsed twoCarSession) }

/-- An update touching only the thumbnail field. -/
def thumbPatch : CarSessionPatch := { photoThumbnail := some (some "newthumb") }

/-- An event row of the hydration scenarios. -/
def cxEvent : DbEvent := { id := "ev1", name := "Cars & Coffee", date := "2026-10-11", created_at := 0 }

/-- A car row of the hydration scenarios. -/
def cxCar : DbCar := { id := "car1", photo_thumbnail := none, identity := none, share_url := none, created_at := 0 }

/-- Query responses where the events and cars reads succeed but the
styles read fails partway (error set, no data). -/
def cxStylesFailDb : RemoteDb :=
  { events := ⟨false, some [cxEvent]⟩, cars := ⟨false, some [cxCar]⟩,
    styles := ⟨true, none⟩, orders := ⟨false, some []⟩ }

/-- Query responses where the events read itself fails. -/
def cxEventsFailDb : RemoteDb :=
  { events := ⟨true, none⟩, cars := ⟨false, some [cxCar]⟩,
    styles := ⟨false, some []⟩, orders := ⟨false, some []⟩ }

/-! # Theorems -/

/-- C1: for every vehicle identity, `getPrioritizedStyles` returns a
permutation of the full 12-entry style catalog: the output has exactly
the catalog's length and every catalog id appears exactly once, whatever
of the 7 categories the classifier assigns. -/
theorem getPrioritizedStyles_permutation (identity : CarIdentity) :
    STYLE_CONFIGS.length = 12 ∧
    (getPrioritizedStyles identity).length = STYLE_CONFIGS.length ∧
    ∀ sid ∈ STYLE_CONFIGS.map StyleConfig.id,
      ((getPrioritizedStyles identity).map StyleConfig.id).count sid = 1 := by
  refine ⟨by decide, ?_, ?_⟩ <;>
  · unfold getPrioritizedStyles
    cases categorizeVehicle identity <;> decide

/-- C1 witness: the permutation property instantiated at the blank
identity and the `vector` catalog id. -/
theorem getPrioritizedStyles_permutation_witness :
    ((getPrioritizedStyles blankIdentity).map StyleConfig.id).count .vector = 1 :=
  (getPrioritizedStyles_permutation blankIdentity).2.2 .vector (by decide)

/-- C7: the classifier is total — every identity lands in one of the 7
categories; an unparsable year reads as 0 (`jsParseInt "" = none`, so
`parseIntOr0 "" = 0`); and the all-blank identity classifies as
`default`. -/
theorem categorizeVehicle_total :
    (∀ identity : CarIdentity,
      categorizeVehicle identity = .pre1980Classic ∨
      categorizeVehicle identity = .eighties90s ∨
      categorizeVehicle identity = .truck ∨
      categorizeVehicle identity = .jdm ∨
      categorizeVehicle identity = .lowrider ∨
      categorizeVehicle identity = .modernSports ∨
      categorizeVehicle identity = .default) ∧
    jsParseInt "" = none ∧
    parseIntOr0 "" = 0 ∧
    categorizeVehicle blankIdentity = .default := by
  refine ⟨?_, by decide, by decide, by decide⟩
  intro identity
  cases categorizeVehicle identity <;> simp

/-- C8: a 2021 Toyota Supra satisfies both the JDM conditions (make in
the JDM list) and the modern-sports conditions (year at least 2010 and
model in the sports-nameplate list), and classifies as `jdm` because the
make-based rule is evaluated first. -/
theorem categorizeVehicle_jdm_precedence :
    categorizeVehicle supraIdentity = .jdm ∧
    2010 ≤ parseIntOr0 supraIdentity.year ∧
    JDM_MAKES.contains (jsLowerTrim supraIdentity.make) = true ∧
    SPORTS_MODELS.any (fun m => strIncludes (jsLowerTrim supraIdentity.model) m) = true := by
  exact ⟨by decide, by decide, by decide, by decide⟩

/-- C2: in the four-request run with concurrency cap 2 where request #2
(`retro`) always fails, every request reaches exactly one terminal
outcome (no retry), `onStyleComplete` fires exactly for requests #1, #3
and #4 whose results land in the returned map under their style ids,
`onStyleError` fires exactly for #2 with the error's message, and the
failure does not abort the sibling request (#1) of its window. -/
theorem generateAllStyles_partial_failure :
    c2run.length = 4 ∧
    c2run.map GenEvent.sid = [.vector, .retro, .calligram, .neon] ∧
    c2run.map GenEvent.idx = [0, 1, 2, 3] ∧
    c2run.map GenEvent.outcome =
      [.ok "u-vector", .error "boom", .ok "u-calligram", .ok "u-neon"] ∧
    completeCalls c2run =
      [(.vector, "u-vector"), (.calligram, "u-calligram"), (.neon, "u-neon")] ∧
    errorCalls c2run = [(.retro, "boom")] ∧
    (genResults c2run).lookup SnapMerchStyle.vector = some "u-vector" ∧
    (genResults c2run).lookup SnapMerchStyle.retro = none ∧
    (genResults c2run).lookup SnapMerchStyle.calligram = some "u-calligram" ∧
    (genResults c2run).lookup SnapMerchStyle.neon = some "u-neon" := by
  decide

/-- C4: when the first write of `saveEventSession` hits the capacity
oracle, the function retries exactly once with the car list cut to the
first three entries (the three most recent, since cars are stored
newest-first) and every thumbnail blanked; if that write also fails the
session entry is removed; no other outcome is possible, and the function
is total (the source catches both exceptions). -/
theorem saveEventSession_quota_ladder (cap : EventSession → Bool) (s : EventSession)
    (st : LocalStorage) (h : cap (stripSession s) = false) :
    saveEventSession cap s st =
      (if cap (trimForRetry (stripSession s))
        then { eventSession := some (.parsed (trimForRetry (stripSession s))) }
        else { eventSession := none }) ∧
    (trimForRetry (stripSession s)).cars =
      ((stripSession s).cars.take 3).map (fun c => { c with photoThumbnail := some "" }) ∧
    (trimForRetry (stripSession s)).cars.length ≤ 3 ∧
    ∀ c ∈ (trimForRetry (stripSession s)).cars, c.photoThumbnail = some "" := by
  refine ⟨by simp [saveEventSession, h], rfl, ?_, ?_⟩
  · simp [trimForRetry]
  · intro c hc
    simp only [trimForRetry] at hc
    obtain ⟨c', _, rfl⟩ := List.mem_map.mp hc
    rfl

/-- C4 witness: a five-car session against a three-car quota — the first
write fails and the trimmed retry is what ends up stored. -/
theorem saveEventSession_quota_ladder_witness :
    saveEventSession quotaCap quotaSession initStorage =
      { eventSession := some (.parsed (trimForRetry (stripSession quotaSession))) } := by
  have h := saveEventSession_quota_ladder quotaCap quotaSession initStorage (by decide)
  rw [h.1]
  decide

/-- C9: when the stored session value fails to parse, `getEventSession`
removes the corrupted entry (the state can no longer hold it) and
returns a freshly created session — new id, today's date, empty car
list — instead of throwing (the embedded function is total). -/
theorem getEventSession_corrupt_recovery (cap : EventSession → Bool)
    (today newId : String) (now : Int) (st : LocalStorage)
    (h : st.eventSession = some .corrupt) :
    getEventSession cap today newId now st =
      (freshSession today newId now,
        { eventSession := if cap (freshSession today newId now)
            then some (.parsed (freshSession today newId now)) else none }) ∧
    (getEventSession cap today newId now st).2.eventSession ≠ some .corrupt ∧
    (getEventSession cap today newId now st).1.cars = [] ∧
    (getEventSession cap today newId now st).1.id = newId ∧
    (getEventSession cap today newId now st).1.date = today := by
  have key : getEventSession cap today newId now st =
      (freshSession today newId now,
        { eventSession := if cap (freshSession today newId now)
            then some (.parsed (freshSession today newId now)) else none }) := by
    have hstrip : stripSession (freshSession today newId now) = freshSession today newId now := rfl
    have htrim : trimForRetry (freshSession today newId now) =
        freshSession today newId now := rfl
    simp only [getEventSession, h, createNewEventSession, saveEventSession, hstrip, htrim]
    cases hc : cap (freshSession today newId now) <;> simp [hc]
  refine ⟨key, ?_, by rw [key]; rfl, by rw [key]; rfl, by rw [key]; rfl⟩
  rw [key]
  cases hc : cap (freshSession today newId now) <;> simp [hc]

/-- C9 witness: corrupted storage under an always-fitting capacity
oracle ends with the fresh session both returned and stored. -/
theorem getEventSession_corrupt_recovery_witness :
    getEventSession alwaysFits "2026-10-11" "fresh1" 5 corruptStorage =
      (freshSession "2026-10-11" "fresh1" 5,
        { eventSession := some (.parsed (freshSession "2026-10-11" "fresh1" 5)) }) := by
  have h := (getEventSession_corrupt_recovery alwaysFits "2026-10-11" "fresh1" 5
    corruptStorage rfl).1
  rw [h]
  decide

/-- C6 counterexample: with the events and cars reads succeeding and the
styles read failing partway, `loadEventFromSupabase` does not return
null — it returns a session whose car has an empty styles list, i.e. a
partially-populated session, contradicting the claim that any partial
read failure yields null. -/
theorem loadEventFromSupabase_partial_failure_cx :
    cxStylesFailDb.styles.err = true ∧
    cxStylesFailDb.styles.data = none ∧
    loadEventFromSupabase true (some "user1") cxStylesFailDb ≠ none ∧
    (loadEventFromSupabase true (some "user1") cxStylesFailDb).map
      (fun s => s.cars.map CarSession.styles) = some [[]] := by
  decide

/-- A failed events read yields null. -/
theorem loadCore_events_err {db : RemoteDb} (h : db.events.err = true) :
    loadCore db = none := by
  simp [loadCore, h]

/-- A null events payload yields null. -/
theorem loadCore_events_data_none {db : RemoteDb} (h : db.events.data = none) :
    loadCore db = none := by
  simp [loadCore, h]

/-- An empty events payload yields null. -/
theorem loadCore_events_data_empty {db : RemoteDb} (h : db.events.data = some []) :
    loadCore db = none := by
  simp [loadCore, h]

/-- A failed cars read yields null whatever the events read returned. -/
theorem loadCore_cars_err {db : RemoteDb} (h : db.cars.err = true) :
    loadCore db = none := by
  rcases hd : db.events.data with _ | ls
  · simp [loadCore, hd]
  · rcases ls with _ | ⟨ev, r⟩
    · simp [loadCore, hd]
    · simp [loadCore, hd, h]

/-- A null cars payload yields null whatever the events read returned. -/
theorem loadCore_cars_data_none {db : RemoteDb} (h : db.cars.data = none) :
    loadCore db = none := by
  rcases hd : db.events.data with _ | ls
  · simp [loadCore, hd]
  · rcases ls with _ | ⟨ev, r⟩
    · simp [loadCore, hd]
    · simp [loadCore, hd, h]

/-- C6 amended: remote hydration returns null whenever the events read
fails (error, null data, or no event row) or the cars read fails (error
or null data); but a failure of the styles read or of the orders read is
silently swallowed — it is indistinguishable from those reads returning
an empty row set, so the function still returns a session with the
affected lists empty. The function itself never throws (it is total). -/
theorem loadEventFromSupabase_failure_modes (hs : Bool) (uid : Option String)
    (db : RemoteDb) :
    (db.events.err = true → loadEventFromSupabase hs uid db = none) ∧
    (db.events.data = none → loadEventFromSupabase hs uid db = none) ∧
    (db.events.data = some [] → loadEventFromSupabase hs uid db = none) ∧
    (db.cars.err = true → loadEventFromSupabase hs uid db = none) ∧
    (db.cars.data = none → loadEventFromSupabase hs uid db = none) ∧
    (∀ e d, loadEventFromSupabase hs uid { db with styles := ⟨e, d⟩ } =
        loadEventFromSupabase hs uid { db with styles := ⟨false, some (d.getD [])⟩ }) ∧
    (∀ e d, loadEventFromSupabase hs uid { db with orders := ⟨e, d⟩ } =
        loadEventFromSupabase hs uid { db with orders := ⟨false, some (d.getD [])⟩ }) := by
  refine ⟨fun h => ?_, fun h => ?_, fun h => ?_, fun h => ?_, fun h => ?_,
    fun e d => ?_, fun e d => ?_⟩ <;>
    unfold loadEventFromSupabase
  · split
    · rfl
    · exact loadCore_events_err h
  · split
    · rfl
    · exact loadCore_events_data_none h
  · split
    · rfl
    · exact loadCore_events_data_empty h
  · split
    · rfl
    · exact loadCore_cars_err h
  · split
    · rfl
    · exact loadCore_cars_data_none h
  · rfl
  · rfl

/-- C6 amended witness: a failed events read at a concrete database and
user returns null. -/
theorem loadEventFromSupabase_failure_modes_witness :
    loadEventFromSupabase true (some "user1") cxEventsFailDb = none :=
  (loadEventFromSupabase_failure_modes true (some "user1") cxEventsFailDb).1 rfl

/-- Mapping each element relates a list pointwise to its image. -/
theorem forall2_map_self {α β : Type} (f : α → β) (R : α → β → Prop)
    (h : ∀ a, R a (f a)) : ∀ l : List α, List.Forall₂ R l (l.map f)
  | [] => List.Forall₂.nil
  | a :: l => List.Forall₂.cons (h a) (forall2_map_self f R h l)

/-- Defaulting a missing string to `''` cannot create a large data
URL. -/
theorem isLargeDataUrl_jsOrEmpty (o : Option String) :
    isLargeDataUrl (some (jsOrEmpty o)) = isLargeDataUrl o := by
  cases o <;> rfl

/-- A stripped style entry never carries a large data URL. -/
theorem stripStyle_not_large (g : GeneratedStyle) (u : String)
    (h : (stripStyle g).imageUrl = some u) : isLargeDataUrl (some u) = false := by
  simp only [stripStyle, Option.some.injEq] at h
  cases hbig : isLargeDataUrl g.imageUrl <;> rw [hbig] at h <;> simp at h <;> subst h
  · rw [isLargeDataUrl_jsOrEmpty]
    exact hbig
  · rfl

/-- A stripped mockup entry never carries a large data URL. -/
theorem stripMockup_not_large (m : MockupResult) (u : String)
    (h : (stripMockup m).imageUrl = some u) : isLargeDataUrl (some u) = false := by
  simp only [stripMockup, Option.some.injEq] at h
  cases hbig : isLargeDataUrl m.imageUrl <;> rw [hbig] at h <;> simp at h <;> subst h
  · rw [isLargeDataUrl_jsOrEmpty]
    exact hbig
  · rfl

/-- The stripped thumbnail is the original exactly when the source's
guard held, and is always under the 15000-character ceiling. -/
theorem stripCar_thumb (c : CarSession) :
    (stripCar c).photoThumbnail = (if thumbKept c then c.photoThumbnail else some "") ∧
    ∀ t, (stripCar c).photoThumbnail = some t → t.length < 15000 := by
  constructor
  · simp only [stripCar]
    cases hk : thumbKept c
    · simp
    · simp only [if_true]
      rcases hthumb : c.photoThumbnail with _ | t
      · rw [thumbKept, hthumb] at hk
        simp at hk
      · simp [jsOrEmpty, hthumb]
  · intro t ht
    simp only [stripCar, Option.some.injEq] at ht
    cases hk : thumbKept c <;> rw [hk] at ht <;> simp at ht <;> subst ht
    · decide
    · rcases hthumb : c.photoThumbnail with _ | t0
      · rw [thumbKept, hthumb] at hk
        simp at hk
      · rw [thumbKept, hthumb] at hk
        simp only [Bool.and_eq_true, decide_eq_true_eq] at hk
        simpa [jsOrEmpty, hthumb] using hk.2

/-- C5: for every session handed to `saveEventSession`, the serialized
value drops each car's photo, keeps a thumbnail only when the source's
size guard (under 15000 characters) held — blanking it otherwise — and
replaces each style or mockup image that is a data URL longer than 500
characters by the empty string, so the serialized cars never hold a
large data URL. -/
theorem saveEventSession_strip_spec (s : EventSession) :
    List.Forall₂ (fun orig new =>
        new.photoBase64 = "" ∧
        new.photoThumbnail = (if thumbKept orig then orig.photoThumbnail else some "") ∧
        (∀ t, new.photoThumbnail = some t → t.length < 15000) ∧
        List.Forall₂ (fun g g2 =>
            g2.imageUrl = some (if isLargeDataUrl g.imageUrl then "" else jsOrEmpty g.imageUrl))
          orig.styles new.styles ∧
        List.Forall₂ (fun m m2 =>
            m2.imageUrl = some (if isLargeDataUrl m.imageUrl then "" else jsOrEmpty m.imageUrl))
          orig.mockups new.mockups)
      s.cars (stripSession s).cars ∧
    (∀ c ∈ (stripSession s).cars, ∀ g ∈ c.styles, ∀ u, g.imageUrl = some u →
        isLargeDataUrl (some u) = false) ∧
    (∀ c ∈ (stripSession s).cars, ∀ m ∈ c.mockups, ∀ u, m.imageUrl = some u →
        isLargeDataUrl (some u) = false) := by
  refine ⟨?_, ?_, ?_⟩
  · show List.Forall₂ _ s.cars (s.cars.map stripCar)
    apply forall2_map_self
    intro c
    refine ⟨rfl, (stripCar_thumb c).1, (stripCar_thumb c).2, ?_, ?_⟩
    · show List.Forall₂ _ c.styles (c.styles.map stripStyle)
      apply forall2_map_self
      intro g
      rfl
    · show List.Forall₂ _ c.mockups (c.mockups.map stripMockup)
      apply forall2_map_self
      intro m
      rfl
  · intro c hc g hg u hu
    obtain ⟨c0, _, rfl⟩ := List.mem_map.mp (show c ∈ s.cars.map stripCar from hc)
    obtain ⟨g0, _, rfl⟩ := List.mem_map.mp (show g ∈ c0.styles.map stripStyle from hg)
    exact stripStyle_not_large g0 u hu
  · intro c hc m hm u hu
    obtain ⟨c0, _, rfl⟩ := List.mem_map.mp (show c ∈ s.cars.map stripCar from hc)
    obtain ⟨m0, _, rfl⟩ := List.mem_map.mp (show m ∈ c0.mockups.map stripMockup from hm)
    exact stripMockup_not_large m0 u hu

set_option maxRecDepth 40000 in
/-- C5 witness: in a session whose car holds a 505-character data URL
(a large one), the stripped entry's image is blanked and carries no
large data URL. -/
theorem saveEventSession_strip_spec_witness :
    isLargeDataUrl (some "") = false ∧ isLargeDataUrl (some bigDataUrl) = true :=
  ⟨(saveEventSession_strip_spec bigImageSession).2.1 (stripCar bigImageCar) (by decide)
      (stripStyle bigStyle) (by decide) "" (by decide),
    by decide⟩

/-- Assigning one index preserves the list length. -/
theorem setCarAt_length (p : CarSessionPatch) :
    ∀ (l : List CarSession) (n : Nat), (setCarAt l n p).length = l.length
  | [], _ => rfl
  | c :: rest, 0 => by simp [setCarAt]
  | c :: rest, n + 1 => by simp [setCarAt, setCarAt_length p rest n]

/-- Assigning one index leaves every other index unchanged. -/
theorem setCarAt_getElem_ne (p : CarSessionPatch) :
    ∀ (l : List CarSession) (n j : Nat), j ≠ n → (setCarAt l n p)[j]? = l[j]?
  | [], _, _, _ => rfl
  | c :: rest, 0, 0, h => absurd rfl h
  | c :: rest, 0, j + 1, _ => by simp [setCarAt]
  | c :: rest, n + 1, 0, _ => by simp [setCarAt]
  | c :: rest, n + 1, j + 1, h => by
      simp only [setCarAt, List.getElem?_cons_succ]
      exact setCarAt_getElem_ne p rest n j (by omega)

/-- Assigning index `n` merges the patch into exactly that element. -/
theorem setCarAt_getElem_eq (p : CarSessionPatch) :
    ∀ (l : List CarSession) (n : Nat),
      (setCarAt l n p)[n]? = (l[n]?).map (fun c => mergeCar c p)
  | [], n => by simp [setCarAt]
  | c :: rest, 0 => by simp [setCarAt]
  | c :: rest, n + 1 => by
      simp only [setCarAt, List.getElem?_cons_succ]
      exact setCarAt_getElem_eq p rest n

/-- Reading the store when it holds a session dated today is pure: the
session is returned and the store untouched. -/
theorem getEventSession_parsed_today (cap : EventSession → Bool) (today newId : String)
    (now : Int) (st : LocalStorage) (s : EventSession)
    (hst : st.eventSession = some (.parsed s)) (hdate : s.date = today) :
    getEventSession cap today newId now st = (s, st) := by
  simp [getEventSession, hst, hdate]

/-- C10: with the store holding a session dated today, `updateCarSession`
merges the patch into the first car whose id matches and leaves every
other car (and the other session fields) unchanged; when no car matches,
the session is returned as-is, the store is not modified and no save is
performed; the merge touches exactly the fields the patch carries. -/
theorem updateCarSession_frame (cap : EventSession → Bool) (today newId : String)
    (now : Int) (carId : String) (patch : CarSessionPatch) (st : LocalStorage)
    (s : EventSession) (hst : st.eventSession = some (.parsed s)) (hdate : s.date = today) :
    (s.cars.findIdx? (fun c => c.id == carId) = none →
      updateCarSession cap today newId now carId patch st = (s, st)) ∧
    (∀ idx, s.cars.findIdx? (fun c => c.id == carId) = some idx →
      (updateCarSession cap today newId now carId patch st).1 =
        { s with cars := setCarAt s.cars idx patch } ∧
      (setCarAt s.cars idx patch).length = s.cars.length ∧
      (∀ j, j ≠ idx → (setCarAt s.cars idx patch)[j]? = s.cars[j]?) ∧
      (setCarAt s.cars idx patch)[idx]? = (s.cars[idx]?).map (fun c => mergeCar c patch)) ∧
    (∀ c : CarSession, mergeCar c {} = c) ∧
    (∀ c : CarSession,
      (mergeCar c patch).id = patch.id.getD c.id ∧
      (mergeCar c patch).photoBase64 = patch.photoBase64.getD c.photoBase64 ∧
      (mergeCar c patch).photoThumbnail = patch.photoThumbnail.getD c.photoThumbnail ∧
      (mergeCar c patch).identity = patch.identity.getD c.identity ∧
      (mergeCar c patch).styles = patch.styles.getD c.styles ∧
      (mergeCar c patch).mockups = patch.mockups.getD c.mockups ∧
      (mergeCar c patch).orders = patch.orders.getD c.orders ∧
      (mergeCar c patch).createdAt = patch.createdAt.getD c.createdAt ∧
      (mergeCar c patch).shareUrl = patch.shareUrl.getD c.shareUrl) := by
  have hread := getEventSession_parsed_today cap today newId now st s hst hdate
  refine ⟨?_, ?_, ?_, ?_⟩
  · intro hnone
    simp [updateCarSession, hread, hnone]
  · intro idx hidx
    exact ⟨by simp [updateCarSession, hread, hidx],
      setCarAt_length patch s.cars idx,
      fun j hj => setCarAt_getElem_ne patch s.cars idx j hj,
      setCarAt_getElem_eq patch s.cars idx⟩
  · intro c
    cases c
    rfl
  · intro c
    exact ⟨rfl, rfl, rfl, rfl, rfl, rfl, rfl, rfl, rfl⟩

/-- C10 witness: patching the second of two cars leaves the first
untouched and merges exactly into the second. -/
theorem updateCarSession_frame_witness :
    (setCarAt twoCarSession.cars 1 thumbPatch)[0]? = twoCarSession.cars[0]? ∧
    (setCarAt twoCarSession.cars 1 thumbPatch)[1]? =
      (twoCarSession.cars[1]?).map (fun c => mergeCar c thumbPatch) := by
  have h := (updateCarSession_frame alwaysFits "2026-10-11" "n1" 7 "b" thumbPatch
      twoCarStorage twoCarSession rfl rfl).2.1 1 (by decide)
  exact ⟨h.2.2.1 0 (by decide), h.2.2.2⟩

/-- Induction on a list two elements at a time, matching the window
structure of the batching loop. -/
theorem listPairInduction {α : Type} {motive : List α → Prop}
    (h0 : motive []) (h1 : ∀ a, motive [a])
    (h2 : ∀ a b l, motive l → motive (a :: b :: l)) : ∀ l, motive l
  | [] => h0
  | [a] => h1 a
  | a :: b :: l => h2 a b l (listPairInduction h0 h1 h2 l)

theorem mkEvent_dispatch (remote : SnapMerchStyle → Except String String)
    (dur : SnapMerchStyle → Nat) (i : Nat) (c : StyleConfig) (t : Nat) :
    (mkEvent remote dur i c t).dispatch = t := rfl

theorem mkEvent_settle (remote : SnapMerchStyle → Except String String)
    (dur : SnapMerchStyle → Nat) (i : Nat) (c : StyleConfig) (t : Nat) :
    (mkEvent remote dur i c t).settle = t + dur c.id := rfl

/-- Every event of a run dispatches no earlier than the run's start time
and settles no earlier than it dispatches. -/
theorem runGen_time_mono (remote : SnapMerchStyle → Except String String)
    (dur : SnapMerchStyle → Nat) :
    ∀ (cs : List StyleConfig) (t0 i0 : Nat) (e : GenEvent),
      e ∈ runGen remote dur t0 i0 cs → t0 ≤ e.dispatch ∧ e.dispatch ≤ e.settle := by
  intro cs
  induction cs using listPairInduction with
  | h0 =>
    intro t0 i0 e he
    simp [runGen] at he
  | h1 a =>
    intro t0 i0 e he
    simp only [runGen, List.mem_singleton] at he
    subst he
    simp [mkEvent_dispatch, mkEvent_settle]
  | h2 a b l ih =>
    intro t0 i0 e he
    simp only [runGen, List.mem_cons] at he
    rcases he with rfl | rfl | he
    · simp [mkEvent_dispatch, mkEvent_settle]
    · simp [mkEvent_dispatch, mkEvent_settle]
    · have hrec := ih (max (mkEvent remote dur i0 a t0).settle
        (mkEvent remote dur (i0 + 1) b (t0 + 500)).settle) (i0 + 2) e he
      refine ⟨?_, hrec.2⟩
      have h1 : t0 ≤ (mkEvent remote dur i0 a t0).settle := by
        simp [mkEvent_settle]
      exact le_trans (le_trans h1 (le_max_left _ _)) hrec.1

/-- The run visits exactly the request list, in list order. -/
theorem runGen_map_sid (remote : SnapMerchStyle → Except String String)
    (dur : SnapMerchStyle → Nat) :
    ∀ (cs : List StyleConfig) (t0 i0 : Nat),
      (runGen remote dur t0 i0 cs).map GenEvent.sid = cs.map StyleConfig.id := by
  intro cs
  induction cs using listPairInduction with
  | h0 => intro t0 i0; rfl
  | h1 a => intro t0 i0; rfl
  | h2 a b l ih =>
    intro t0 i0
    simp only [runGen, List.map_cons, ih]
    rfl

/-- The first event of a (nonempty) run dispatches at the start time. -/
theorem runGen_head (remote : SnapMerchStyle → Except String String)
    (dur : SnapMerchStyle → Nat) (cs : List StyleConfig) (t0 i0 : Nat)
    (e : GenEvent) (rest : List GenEvent)
    (h : runGen remote dur t0 i0 cs = e :: rest) : e.dispatch = t0 := by
  rcases cs with _ | ⟨a, _ | ⟨b, l⟩⟩
  · simp [runGen] at h
  · simp only [runGen, List.cons.injEq] at h
    rw [← h.1]
    rfl
  · simp only [runGen, List.cons.injEq] at h
    rw [← h.1]
    rfl

/-- In every window (the pairs at even offsets of the trace), the second
request dispatches exactly 500 ms after the first. -/
theorem runGen_stagger (remote : SnapMerchStyle → Except String String)
    (dur : SnapMerchStyle → Nat) :
    ∀ (cs : List StyleConfig) (t0 i0 k : Nat) (e1 e2 : GenEvent) (rest : List GenEvent),
      (runGen remote dur t0 i0 cs).drop (2 * k) = e1 :: e2 :: rest →
      e2.dispatch = e1.dispatch + 500 := by
  intro cs
  induction cs using listPairInduction with
  | h0 =>
    intro t0 i0 k e1 e2 rest h
    simp [runGen] at h
  | h1 a =>
    intro t0 i0 k e1 e2 rest h
    rcases k with _ | k
    · simp [runGen] at h
    · rw [show 2 * (k + 1) = (2 * k + 1) + 1 by ring] at h
      simp [runGen, List.drop_succ_cons] at h
  | h2 a b l ih =>
    intro t0 i0 k e1 e2 rest h
    rcases k with _ | k
    · simp only [Nat.mul_zero, List.drop_zero, runGen, List.cons.injEq] at h
      rw [← h.1, ← h.2.1]
      rfl
    · rw [show 2 * (k + 1) = (2 * k + 1) + 1 by ring] at h
      simp only [runGen, List.drop_succ_cons] at h
      exact ih _ _ k e1 e2 rest h

/-- The first request of each later window dispatches exactly when both
calls of the previous window have settled. -/
theorem runGen_window_start (remote : SnapMerchStyle → Except String String)
    (dur : SnapMerchStyle → Nat) :
    ∀ (cs : List StyleConfig) (t0 i0 k : Nat) (e1 e2 e3 : GenEvent) (rest : List GenEvent),
      (runGen remote dur t0 i0 cs).drop (2 * k) = e1 :: e2 :: e3 :: rest →
      e3.dispatch = max e1.settle e2.settle := by
  intro cs
  induction cs using listPairInduction with
  | h0 =>
    intro t0 i0 k e1 e2 e3 rest h
    simp [runGen] at h
  | h1 a =>
    intro t0 i0 k e1 e2 e3 rest h
    rcases k with _ | k
    · simp [runGen] at h
    · rw [show 2 * (k + 1) = (2 * k + 1) + 1 by ring] at h
      simp [runGen, List.drop_succ_cons] at h
  | h2 a b l ih =>
    intro t0 i0 k e1 e2 e3 rest h
    rcases k with _ | k
    · simp only [Nat.mul_zero, List.drop_zero, runGen, List.cons.injEq] at h
      have h3 := runGen_head remote dur l _ (i0 + 2) e3 rest h.2.2
      rw [h3, ← h.1, ← h.2.1]
    · rw [show 2 * (k + 1) = (2 * k + 1) + 1 by ring] at h
      simp only [runGen, List.drop_succ_cons] at h
      exact ih _ _ k e1 e2 e3 rest h

/-- Every event of an earlier window settles no later than any event
from a later window dispatches: a window is fully settled before the
next window's calls are issued. -/
theorem runGen_cross_window (remote : SnapMerchStyle → Except String String)
    (dur : SnapMerchStyle → Nat) :
    ∀ (cs : List StyleConfig) (t0 i0 k : Nat) (ej ek : GenEvent),
      ej ∈ (runGen remote dur t0 i0 cs).take (2 * k) →
      ek ∈ (runGen remote dur t0 i0 cs).drop (2 * k) →
      ej.settle ≤ ek.dispatch := by
  intro cs
  induction cs using listPairInduction with
  | h0 =>
    intro t0 i0 k ej ek hj hk
    simp [runGen] at hj
  | h1 a =>
    intro t0 i0 k ej ek hj hk
    rcases k with _ | k
    · simp at hj
    · rw [show 2 * (k + 1) = (2 * k + 1) + 1 by ring] at hk
      simp [runGen, List.drop_succ_cons] at hk
  | h2 a b l ih =>
    intro t0 i0 k ej ek hj hk
    rcases k with _ | k
    · simp at hj
    · rw [show 2 * (k + 1) = (2 * k) + 1 + 1 by ring] at hj hk
      simp only [runGen, List.take_succ_cons, List.drop_succ_cons, List.mem_cons] at hj hk
      have hkmem : ek ∈ runGen remote dur (max (mkEvent remote dur i0 a t0).settle
          (mkEvent remote dur (i0 + 1) b (t0 + 500)).settle) (i0 + 2) l :=
        (List.drop_sublist _ _).subset hk
      have hkd := (runGen_time_mono remote dur l _ (i0 + 2) ek hkmem).1
      rcases hj with rfl | rfl | hj
      · exact le_trans (le_trans (le_max_left _ _) hkd) le_rfl
      · exact le_trans (le_trans (le_max_right _ _) hkd) le_rfl
      · exact ih _ _ k ej ek hj hk

/-- C3: `generateAllStyles` processes its request list in consecutive
windows of two, in list order: the trace covers exactly the request
list in order; the very first call is dispatched at time 0; within each
window the second call is dispatched exactly 500 ms after the first;
the first call of each subsequent window is dispatched exactly when
both calls of the previous window have settled; and no call of a later
window is dispatched before every call of each earlier window has
settled. -/
theorem generateAllStyles_window_discipline
    (remote : SnapMerchStyle → Except String String)
    (dur : SnapMerchStyle → Nat) (cs : List StyleConfig) :
    (generateAllStyles remote dur cs).map GenEvent.sid = cs.map StyleConfig.id ∧
    (∀ e rest, generateAllStyles remote dur cs = e :: rest → e.dispatch = 0) ∧
    (∀ k e1 e2 rest, (generateAllStyles remote dur cs).drop (2 * k) = e1 :: e2 :: rest →
      e2.dispatch = e1.dispatch + 500) ∧
    (∀ k e1 e2 e3 rest, (generateAllStyles remote dur cs).drop (2 * k) = e1 :: e2 :: e3 :: rest →
      e3.dispatch = max e1.settle e2.settle) ∧
    (∀ k ej ek, ej ∈ (generateAllStyles remote dur cs).take (2 * k) →
      ek ∈ (generateAllStyles remote dur cs).drop (2 * k) → ej.settle ≤ ek.dispatch) ∧
    (∀ e ∈ generateAllStyles remote dur cs, e.dispatch ≤ e.settle) :=
  ⟨runGen_map_sid remote dur cs 0 0,
   fun e rest h => runGen_head remote dur cs 0 0 e rest h,
   fun k e1 e2 rest h => runGen_stagger remote dur cs 0 0 k e1 e2 rest h,
   fun k e1 e2 e3 rest h => runGen_window_start remote dur cs 0 0 k e1 e2 e3 rest h,
   fun k ej ek hj hk => runGen_cross_window remote dur cs 0 0 k ej ek hj hk,
   fun e he => (runGen_time_mono remote dur cs 0 0 e he).2⟩

/-- C3 witness: over three all-succeeding requests with 1000 ms latency,
the second request of the first window dispatches at 500 ms (500 after
the first), and the first request settles (at 1000 ms) before the third
request — the start of the second window — dispatches (at 1500 ms). -/
theorem generateAllStyles_window_discipline_witness :
    GenEvent.dispatch ⟨1, .retro, 500, 1500, .ok "img"⟩ =
      GenEvent.dispatch ⟨0, .vector, 0, 1000, .ok "img"⟩ + 500 ∧
    GenEvent.settle ⟨0, .vector, 0, 1000, .ok "img"⟩ ≤
      GenEvent.dispatch ⟨2, .calligram, 1500, 2500, .ok "img"⟩ :=
  ⟨(generateAllStyles_window_discipline okRemote flatDur (STYLE_CONFIGS.take 3)).2.2.1
      0 ⟨0, .vector, 0, 1000, .ok "img"⟩ ⟨1, .retro, 500, 1500, .ok "img"⟩
      [⟨2, .calligram, 1500, 2500, .ok "img"⟩] (by decide),
   (generateAllStyles_window_discipline okRemote flatDur (STYLE_CONFIGS.take 3)).2.2.2.2.1
      1 ⟨0, .vector, 0, 1000, .ok "img"⟩ ⟨2, .calligram, 1500, 2500, .ok "img"⟩
      (by decide) (by decide)⟩

end Snapmerch
